import Mathlib

/-!
Verification of the hotel-booking automation script (`main.py`).

The Python source is shallowly embedded as executable Lean definitions:

* spreadsheet cells are modelled by `Cell` (an empty cell is a pandas `NaN`;
  `pyStr` models Python `str(...)` which renders `NaN` as `"nan"`, and
  `pyInt?` models Python `int(...)` which raises on `NaN` and on
  non-integral text);
* a sheet row is `SheetRow`, with `Option Cell` fields where the source uses
  `row.get(column, default)` (a `none` field models an absent column);
* `get_pending_bookings` mirrors `GoogleSheetsManager.get_pending_bookings`:
  the status filter, the per-row parse (whose `int()` conversions can raise,
  dropping the row), and the hotel-id / city-code validation;
* `load_booking_from_dict` models the date derivation with dates as day
  counts (`datetime.now() + timedelta(days=k)` becomes integer addition);
* `build_hotel_url` mirrors the URL template;
* `wait_for_payment_status` mirrors `BookingPage.wait_for_payment_status`,
  idealising each poll as instantaneous: checks happen at elapsed times
  0, I, 2I, ... while the elapsed time is `< PAYMENT_WAIT_TIMEOUT`, an
  indicator that became present at time `t` is seen by any check at
  elapsed time `≥ t`;
* `extract_booking_id` mirrors the three tiers of
  `BookingPage.extract_booking_id` (element texts, regex scan of the page
  source, class-name sweep); the regex tier implements the patterns
  `LABEL[:\s]+([A-Z0-9]{6,})` with `re.IGNORECASE` and leftmost search;
* `process_single_booking` mirrors the orchestration of one booking: the
  step outcomes that depend on the live page are inputs in `FlowEnv`, and
  the returned trace of `Step`s records which steps were attempted;
* `classifyStatus` mirrors the status decision chain in `main`, and
  `processBookings` the per-row loop.
-/

/-- A spreadsheet cell as seen through pandas `read_csv`:
`blank` is an empty cell (pandas `NaN`), `str` a textual value,
`num` an integral numeric value. -/
inductive Cell
  | blank
  | str (s : String)
  | num (n : Int)
deriving DecidableEq, Repr

/-- Python `str(...)` applied to a cell value: `str(float('nan')) = "nan"`. -/
def pyStr : Cell → String
  | Cell.blank => "nan"
  | Cell.str s => s
  | Cell.num n => toString n

/-- Python `str.strip()`: drop leading and trailing whitespace. -/
def pyStrip (s : String) : String :=
  String.mk
    (((s.toList.dropWhile Char.isWhitespace).reverse.dropWhile
        Char.isWhitespace).reverse)

/-- Python `str.lower()` (ASCII). -/
def pyLower (s : String) : String :=
  String.mk (s.toList.map Char.toLower)

/-- Python `str.upper()` (ASCII). -/
def pyUpper (s : String) : String :=
  String.mk (s.toList.map Char.toUpper)

/-- Decimal value of a digit run; `none` if a non-digit occurs. -/
def digitsVal : List Char → Nat → Option Nat
  | [], acc => some acc
  | c :: cs, acc =>
    if c.isDigit then digitsVal cs (acc * 10 + (c.toNat - 48)) else none

/-- Decimal value of a non-empty digit run. -/
def digitsToNat? : List Char → Option Nat
  | [] => none
  | ds => digitsVal ds 0

/-- Python `int(...)` on text: strip whitespace, allow one sign, then
require a non-empty digit run (`none` models `int()` raising). -/
def pyParseInt? (s : String) : Option Int :=
  match (pyStrip s).toList with
  | '-' :: ds => (digitsToNat? ds).map fun n => -(n : Int)
  | '+' :: ds => (digitsToNat? ds).map fun n => (n : Int)
  | ds => (digitsToNat? ds).map fun n => (n : Int)

/-- Python `int(...)` applied to a cell value, as an `Option`:
`int(nan)` raises (`none`), `int` of non-integral text raises (`none`),
`int` of an integer or of integer text succeeds. -/
def pyInt? : Cell → Option Int
  | Cell.blank => none
  | Cell.num n => some n
  | Cell.str s => pyParseInt? s

/-- One spreadsheet row. `Option Cell` fields model `row.get(col, default)`:
`none` means the column is absent, so the source-side default applies.
The `status` field is the value of the `Status` column after
`astype(str)` (an empty cell therefore reads back as `"nan"`). -/
structure SheetRow where
  status : Cell
  hotelId : Option Cell
  cityCode : Option Cell
  checkin : Option Cell
  nights : Option Cell
  adults : Option Cell
  children : Option Cell
  rooms : Option Cell
  firstName : Option Cell
  lastName : Option Cell
  email : Option Cell
  mobile : Option Cell
  upiId : Option Cell
deriving DecidableEq, Repr

/-- The parsed booking request built from one pending row
(the dict appended to `bookings`). -/
structure Booking where
  rowNumber : Nat
  hotelId : String
  cityCode : String
  checkinDays : Int
  nights : Int
  adults : Int
  children : Int
  rooms : Int
  firstName : String
  lastName : String
  email : String
  mobile : String
  upiId : String
deriving DecidableEq, Repr

/-- The row-status filter: `Status == 'nan'` (a blank cell after
`astype(str)`) or `Status.lower().strip() == 'pending'`. -/
def rowPending (r : SheetRow) : Bool :=
  pyStr r.status == "nan" || pyStrip (pyLower (pyStr r.status)) == "pending"

/-- `str(row.get(col, '')).strip()` for a textual column. -/
def strField (c : Option Cell) : String :=
  pyStrip ((c.map pyStr).getD "")

/-- `int(row.get(col, d))` for a numeric column, as an `Option`:
an absent column takes the default `d`; a present cell goes through
`pyInt?` and `none` models the `int()` call raising. -/
def numField (c : Option Cell) (d : Int) : Option Int :=
  match c with
  | none => some d
  | some cell => pyInt? cell

/-- The check-in offset: `int(row.get('Check-in', row.get('Check-in (days)', 7)))`
wrapped in its own `try`, defaulting to 7 whenever `int()` raises. -/
def rowCheckinDays (r : SheetRow) : Int :=
  match r.checkin with
  | none => 7
  | some c => (pyInt? c).getD 7

/-- Parsing the booking dict for one row; `none` models the `int()`
conversions of Nights / Adults / Children / Rooms raising, which the
per-row `except` turns into skipping the row. -/
def parseBookingRow (idx : Nat) (r : SheetRow) : Option Booking :=
  match numField r.nights 1, numField r.adults 2,
        numField r.children 0, numField r.rooms 1 with
  | some n, some a, some c, some rm =>
    some { rowNumber := idx + 2
           hotelId := strField r.hotelId
           cityCode := pyUpper (strField r.cityCode)
           checkinDays := rowCheckinDays r
           nights := n
           adults := a
           children := c
           rooms := rm
           firstName := strField r.firstName
           lastName := strField r.lastName
           email := strField r.email
           mobile := strField r.mobile
           upiId := strField r.upiId }
  | _, _, _, _ => none

/-- Parse plus the required-field validation
`if booking['hotel_id'] and booking['city_code']`. -/
def includeRow (idx : Nat) (r : SheetRow) : Option Booking :=
  match parseBookingRow idx r with
  | none => none
  | some b => if b.hotelId ≠ "" ∧ b.cityCode ≠ "" then some b else none

/-- The worklist construction over the rows, carrying the dataframe index:
rows failing the status filter, rows whose parse raises, and rows failing
validation are all skipped and iteration continues. -/
def get_pending_bookings_aux : Nat → List SheetRow → List Booking
  | _, [] => []
  | idx, r :: rs =>
    if rowPending r then
      match includeRow idx r with
      | some b => b :: get_pending_bookings_aux (idx + 1) rs
      | none => get_pending_bookings_aux (idx + 1) rs
    else get_pending_bookings_aux (idx + 1) rs

/-- `GoogleSheetsManager.get_pending_bookings` over the sheet's rows. -/
def get_pending_bookings (rows : List SheetRow) : List Booking :=
  get_pending_bookings_aux 0 rows

/-- Date derivation of `load_booking_from_dict`, with dates as day counts:
checkin is `today + checkin_days`, checkout is `checkin + nights`. -/
def load_booking_from_dict (today checkinDays nights : Int) : Int × Int :=
  let checkin := today + checkinDays
  let checkout := checkin + nights
  (checkin, checkout)

/-- The `&rsc=` qualifier `f"{Config.ROOMS}e{Config.ADULTS}e{Config.CHILDREN}e"`. -/
def rscQualifier (rooms adults children : Int) : String :=
  toString rooms ++ "e" ++ toString adults ++ "e" ++ toString children ++ "e"

/-- The `&roomStayQualifier=` value `f"{Config.ADULTS}e{Config.CHILDREN}e"`. -/
def roomStayQualifier (adults children : Int) : String :=
  toString adults ++ "e" ++ toString children ++ "e"

/-- The inputs `build_hotel_url` reads from `Config`
(populated per booking by `load_booking_from_dict`). -/
structure UrlInputs where
  hotelId : String
  checkinDate : String
  checkoutDate : String
  cityCode : String
  adults : Int
  children : Int
  rooms : Int
deriving DecidableEq, Repr

/-- `build_hotel_url`: the fixed URL template. -/
def build_hotel_url (i : UrlInputs) : String :=
  "https://www.makemytrip.com/hotels/hotel-details/" ++
  "?hotelId=" ++ i.hotelId ++
  "&_uCurrency=INR" ++
  "&checkin=" ++ i.checkinDate ++
  "&checkout=" ++ i.checkoutDate ++
  "&city=" ++ i.cityCode ++
  "&country=IN" ++
  "&locusId=" ++ i.cityCode ++
  "&locusType=city" ++
  "&roomStayQualifier=" ++ roomStayQualifier i.adults i.children ++
  "&rsc=" ++ rscQualifier i.rooms i.adults i.children

/-- Python truthiness of an optional string (`None` and `""` are falsy). -/
def pyTruthy : Option String → Bool
  | none => false
  | some s => !(s == "")

/-- The final-status decision chain in `main`:
`skipped` wins first, then `success and booking_id`, then `success`,
else `Failed`. -/
def classifyStatus (paymentStatus : Option String) (success : Bool)
    (bookingId : Option String) : String :=
  if paymentStatus = some "skipped" then "Skipped"
  else if success && pyTruthy bookingId then "Completed"
  else if success then "Pending Verification"
  else "Failed"

/-- `Config.PAYMENT_WAIT_TIMEOUT` (seconds). -/
def PAYMENT_WAIT_TIMEOUT : Nat := 15

/-- `Config.PAYMENT_CHECK_INTERVAL` (seconds). -/
def PAYMENT_CHECK_INTERVAL : Nat := 5

/-- Whether a success indicator (explicit element or page-source keyword)
is seen by a check at the given elapsed time: the indicator became present
at time `t` (`none` = never during the wait window). -/
def indicatorPresent (t : Option Nat) (elapsed : Nat) : Bool :=
  match t with
  | none => false
  | some t0 => if t0 ≤ elapsed then true else false

/-- The polling loop of `wait_for_payment_status`: while the elapsed time
is `< PAYMENT_WAIT_TIMEOUT`, check for an indicator (exiting immediately
with `true` when found), else sleep `PAYMENT_CHECK_INTERVAL` seconds.
Returns the exit elapsed time and whether payment was confirmed.
`fuel` bounds the recursion; `wait_for_payment_loop` supplies enough
fuel for all iterations. -/
def payWaitAux (t : Option Nat) : Nat → Nat → Nat × Bool
  | 0, elapsed => (elapsed, false)
  | fuel + 1, elapsed =>
    if elapsed < PAYMENT_WAIT_TIMEOUT then
      if indicatorPresent t elapsed then (elapsed, true)
      else payWaitAux t fuel (elapsed + PAYMENT_CHECK_INTERVAL)
    else (elapsed, false)

/-- The polling loop started at elapsed time 0. -/
def wait_for_payment_loop (t : Option Nat) : Nat × Bool :=
  payWaitAux t (PAYMENT_WAIT_TIMEOUT / PAYMENT_CHECK_INTERVAL + 1) 0

/-- `BookingPage.wait_for_payment_status`: returns the state tag and
message. `exc` models an exception inside the wait (caught there and
reported as state `error`); `t` is the time at which a success indicator
becomes present. -/
def wait_for_payment_status (exc : Option String) (t : Option Nat) :
    String × String :=
  match exc with
  | some e => ("error", "Error while waiting: " ++ e)
  | none =>
    let r := wait_for_payment_loop t
    if r.2 then
      ("success", "Payment confirmed in " ++ toString r.1 ++ " seconds")
    else
      ("timeout", "Waited " ++ toString PAYMENT_WAIT_TIMEOUT ++
        " seconds - status unknown")

/-- The earliest multiple of `PAYMENT_CHECK_INTERVAL` that is `≥ t0`:
the check boundary at which an indicator appearing at time `t0` is seen. -/
def nextCheckBoundary (t0 : Nat) : Nat :=
  PAYMENT_CHECK_INTERVAL *
    ((t0 + PAYMENT_CHECK_INTERVAL - 1) / PAYMENT_CHECK_INTERVAL)

/-- Case-insensitive character comparison, for `re.IGNORECASE`. -/
def charCIEq (a b : Char) : Bool :=
  a.toLower == b.toLower

/-- A character of the class `[:\s]` (a colon or Python `\s` whitespace). -/
def isSepChar (c : Char) : Bool :=
  c == ':' || c == ' ' || c == '\t' || c == '\n' || c == '\r' ||
  c == '\x0b' || c == '\x0c'

/-- A character of the class `[A-Z0-9]` under `re.IGNORECASE`
(ASCII letters of either case, or digits). -/
def isIdChar (c : Char) : Bool :=
  c.isAlpha || c.isDigit

/-- Case-insensitively match `label` as a literal at the head of `s`,
returning the remainder on success. -/
def matchLabel : List Char → List Char → Option (List Char)
  | [], rest => some rest
  | _ :: _, [] => none
  | l :: ls, c :: cs => if charCIEq l c then matchLabel ls cs else none

/-- Try the pattern `LABEL[:\s]+([A-Z0-9]{6,})` at the head of `s`,
returning the captured group. The two character classes are disjoint, so
greedy maximal munch is exact. -/
def tryPatternAt (label : List Char) (s : List Char) : Option (List Char) :=
  match matchLabel label s with
  | none => none
  | some rest =>
    let seps := rest.takeWhile isSepChar
    if seps.isEmpty then none
    else
      let idChars := (rest.drop seps.length).takeWhile isIdChar
      if 6 ≤ idChars.length then some idChars else none

/-- `re.search`: leftmost match of the pattern in the text. -/
def searchPattern (label : List Char) : List Char → Option (List Char)
  | [] => none
  | c :: cs =>
    match tryPatternAt label (c :: cs) with
    | some cap => some cap
    | none => searchPattern label cs

/-- The fixed label list of the regex tier of `extract_booking_id`,
in source order. -/
def bookingIdLabels : List String :=
  ["Booking ID", "Booking Number", "Confirmation Number",
   "Reference", "Order ID"]

/-- The regex tier: scan the full page source with each pattern in order
and return the captured identifier of the first pattern that matches. -/
def regexTier (pageSource : String) : Option String :=
  bookingIdLabels.findSome? fun lab =>
    (searchPattern lab.toList pageSource.toList).map fun cap =>
      String.mk cap

/-- The element tier of `extract_booking_id`: the first displayed element
text (stripped) that is non-empty and contains a digit. -/
def elemTier (texts : List String) : Option String :=
  (texts.map pyStrip).find? fun t =>
    !(t == "") && t.toList.any Char.isDigit

/-- The class-name sweep tier of `extract_booking_id`: the first
`latoBlack`-class element text (stripped) of length at least 6 that
contains a digit. -/
def sweepTier (texts : List String) : Option String :=
  (texts.map pyStrip).find? fun t =>
    !(t == "") && 6 ≤ t.length && t.toList.any Char.isDigit

/-- `BookingPage.extract_booking_id`: element selectors first, then the
regex scan of the page source, then the class-name sweep. -/
def extract_booking_id (elemTexts : List String) (pageSource : String)
    (sweepTexts : List String) : Option String :=
  match elemTier elemTexts with
  | some b => some b
  | none =>
    match regexTier pageSource with
    | some b => some b
    | none => sweepTier sweepTexts

/-- The steps of the booking page flow, in spec numbering
(1 = OpenHotelPage ... 11 = ExtractPrice). -/
inductive Step
  | openHotelPage
  | bookNow
  | guestDetails
  | payNow
  | selectUpi
  | enterUpiId
  | sendPaymentRequest
  | paymentWait
  | closePopup
  | extractBookingId
  | extractPrice
deriving DecidableEq, Repr

/-- The 5-tuple returned by `process_single_booking`. -/
structure Outcome where
  success : Bool
  message : String
  paymentStatus : Option String
  bookingId : Option String
  price : Option String
deriving DecidableEq, Repr

/-- The page-dependent behaviour of one booking attempt: which clicks and
fills succeed, whether navigation raises, how the payment wait behaves,
and what the confirmation page offers for extraction.
`priceResult` abstracts the result of `extract_price` (step 11), whose
internal tiers are analogous to `extract_booking_id` and not claimed on. -/
structure FlowEnv where
  navigate : Except String Unit
  bookNowClick : Bool
  bookNowAltClick : Bool
  guestDetailsOk : Bool
  payNowOk : Bool
  selectUpiOk : Bool
  enterUpiOk : Bool
  sendPaymentOk : Bool
  payWaitExc : Option String
  indicatorTime : Option Nat
  idElemTexts : List String
  pageSource : String
  idSweepTexts : List String
  priceResult : Option String
deriving Repr

/-- `HotelPage.click_book_now`: the primary selector, then the alternate;
the click succeeds if either strategy does. -/
def click_book_now (env : FlowEnv) : Bool :=
  env.bookNowClick || env.bookNowAltClick

/-- The trace of the flow through step 8 (payment wait). -/
def stepsThroughWait : List Step :=
  [Step.openHotelPage, Step.bookNow, Step.guestDetails, Step.payNow,
   Step.selectUpi, Step.enterUpiId, Step.sendPaymentRequest,
   Step.paymentWait]

/-- The trace of a flow that reaches extraction (steps 1-11). -/
def allSteps : List Step :=
  stepsThroughWait ++ [Step.closePopup, Step.extractBookingId,
    Step.extractPrice]

/-- `process_single_booking`, instrumented with the list of steps
attempted. The outer `try` catches the navigation exception; each later
call catches its own exceptions internally and returns a result, so a
step failure returns the corresponding tuple and skips the rest. -/
def processT (env : FlowEnv) : Outcome × List Step :=
  match env.navigate with
  | Except.error e =>
    (⟨false, e, some "error", none, none⟩, [Step.openHotelPage])
  | Except.ok _ =>
    if click_book_now env = false then
      (⟨false, "Skipped - Book Now button not found", some "skipped",
        none, none⟩,
       [Step.openHotelPage, Step.bookNow])
    else if env.guestDetailsOk = false then
      (⟨false, "Failed to enter guest details", none, none, none⟩,
       [Step.openHotelPage, Step.bookNow, Step.guestDetails])
    else if env.payNowOk = false then
      (⟨false, "Pay Now button not found", none, none, none⟩,
       [Step.openHotelPage, Step.bookNow, Step.guestDetails, Step.payNow])
    else if env.selectUpiOk = false then
      (⟨false, "UPI option not found", none, none, none⟩,
       [Step.openHotelPage, Step.bookNow, Step.guestDetails, Step.payNow,
        Step.selectUpi])
    else if env.enterUpiOk = false then
      (⟨false, "Failed to enter UPI ID", none, none, none⟩,
       [Step.openHotelPage, Step.bookNow, Step.guestDetails, Step.payNow,
        Step.selectUpi, Step.enterUpiId])
    else if env.sendPaymentOk = false then
      (⟨false, "Failed to send payment request", none, none, none⟩,
       [Step.openHotelPage, Step.bookNow, Step.guestDetails, Step.payNow,
        Step.selectUpi, Step.enterUpiId, Step.sendPaymentRequest])
    else
      let w := wait_for_payment_status env.payWaitExc env.indicatorTime
      if w.1 = "success" then
        let bid := extract_booking_id env.idElemTexts env.pageSource
          env.idSweepTexts
        (⟨true,
          if bid.isSome then "Success - Payment Confirmed"
          else "Success - Booking ID not found",
          some "success", bid, env.priceResult⟩, allSteps)
      else if w.1 = "timeout" then
        let bid := extract_booking_id env.idElemTexts env.pageSource
          env.idSweepTexts
        (⟨true, "Completed - Verify payment manually", some "timeout",
          bid, env.priceResult⟩, allSteps)
      else
        (⟨false, "Error - " ++ w.2, some "error", none, none⟩,
         stepsThroughWait)

/-- `process_single_booking`: the returned outcome tuple. -/
def process_single_booking (env : FlowEnv) : Outcome :=
  (processT env).1

/-- All steps 2-7 reporting success, so that the flow reaches the
payment wait. -/
def stepsOk (env : FlowEnv) : Prop :=
  click_book_now env = true ∧ env.guestDetailsOk = true ∧
  env.payNowOk = true ∧ env.selectUpiOk = true ∧
  env.enterUpiOk = true ∧ env.sendPaymentOk = true

/-- The per-row loop of `main`: every booking is processed and classified;
no row's outcome stops the iteration. -/
def processBookings (items : List (Nat × FlowEnv)) :
    List (Nat × Outcome × String) :=
  items.map fun p =>
    let o := process_single_booking p.2
    (p.1, o, classifyStatus o.paymentStatus o.success o.bookingId)

/-- The scenario row: empty `Status` cell, `Hotel ID` "12345",
`City Code` "del", every other column absent. -/
def scenPendingRow : SheetRow :=
  { status := Cell.blank, hotelId := some (Cell.str "12345"),
    cityCode := some (Cell.str "del"), checkin := none, nights := none,
    adults := none, children := none, rooms := none, firstName := none,
    lastName := none, email := none, mobile := none, upiId := none }

/-- A row whose `Nights` cell holds non-numeric text: its status is empty
and its hotel id and city code are non-empty, yet `int('abc')` raises and
the per-row handler drops the row. -/
def badNightsRow : SheetRow :=
  { status := Cell.blank, hotelId := some (Cell.str "98765"),
    cityCode := some (Cell.str "GOI"), checkin := none,
    nights := some (Cell.str "abc"), adults := none, children := none,
    rooms := none, firstName := none, lastName := none, email := none,
    mobile := none, upiId := none }

/-- A row whose `Nights` column is present but whose cell is empty:
`row.get('Nights', 1)` returns `NaN`, `int(nan)` raises, and the per-row
handler drops the row instead of defaulting the field. -/
def blankNightsRow : SheetRow :=
  { status := Cell.blank, hotelId := some (Cell.str "777001"),
    cityCode := some (Cell.str "BOM"), checkin := none,
    nights := some Cell.blank, adults := none, children := none,
    rooms := none, firstName := none, lastName := none, email := none,
    mobile := none, upiId := none }

/-- A concrete environment in which the Book Now control never becomes
clickable but every later step would have succeeded. -/
def envBookNowGone : FlowEnv :=
  { navigate := Except.ok (), bookNowClick := false,
    bookNowAltClick := false, guestDetailsOk := true, payNowOk := true,
    selectUpiOk := true, enterUpiOk := true, sendPaymentOk := true,
    payWaitExc := none, indicatorTime := some 0, idElemTexts := [],
    pageSource := "", idSweepTexts := [], priceResult := none }

/-- A concrete environment whose navigation raises. -/
def envNavRaises : FlowEnv :=
  { navigate := Except.error "Message: timeout from renderer",
    bookNowClick := true, bookNowAltClick := true, guestDetailsOk := true,
    payNowOk := true, selectUpiOk := true, enterUpiOk := true,
    sendPaymentOk := true, payWaitExc := none, indicatorTime := some 0,
    idElemTexts := [], pageSource := "", idSweepTexts := [],
    priceResult := none }

/-- A concrete environment in which steps 2-7 all succeed and the payment
wait itself raises (caught inside `wait_for_payment_status`, reported as
state `error`). -/
def envPayWaitError : FlowEnv :=
  { navigate := Except.ok (), bookNowClick := true,
    bookNowAltClick := false, guestDetailsOk := true, payNowOk := true,
    selectUpiOk := true, enterUpiOk := true, sendPaymentOk := true,
    payWaitExc := some "connection lost", indicatorTime := none,
    idElemTexts := [], pageSource := "", idSweepTexts := [],
    priceResult := none }

/-- A concrete environment in which every step succeeds and a success
indicator is present from the start. -/
def envAllOk : FlowEnv :=
  { navigate := Except.ok (), bookNowClick := true,
    bookNowAltClick := false, guestDetailsOk := true, payNowOk := true,
    selectUpiOk := true, enterUpiOk := true, sendPaymentOk := true,
    payWaitExc := none, indicatorTime := some 0,
    idElemTexts := ["Booking ID NL7203512345"], pageSource := "",
    idSweepTexts := [], priceResult := some "12500" }

/-- C1: the final-status classification is total and deterministic and
follows the decision table with first match winning: `skipped` yields
`Skipped`; otherwise success with a (truthy) booking id yields
`Completed`; otherwise success yields `Pending Verification`; otherwise
`Failed` — and every triple is assigned exactly one of the four statuses. -/
theorem status_classification_table_total (ps : Option String)
    (success : Bool) (bid : Option String) :
    (ps = some "skipped" → classifyStatus ps success bid = "Skipped") ∧
    (ps ≠ some "skipped" → success = true → pyTruthy bid = true →
      classifyStatus ps success bid = "Completed") ∧
    (ps ≠ some "skipped" → success = true → pyTruthy bid = false →
      classifyStatus ps success bid = "Pending Verification") ∧
    (ps ≠ some "skipped" → success = false →
      classifyStatus ps success bid = "Failed") ∧
    (classifyStatus ps success bid = "Skipped" ∨
     classifyStatus ps success bid = "Completed" ∨
     classifyStatus ps success bid = "Pending Verification" ∨
     classifyStatus ps success bid = "Failed") := by
  unfold classifyStatus
  by_cases hps : ps = some "skipped" <;> cases success <;>
    cases hb : pyTruthy bid <;> simp [hps, hb]

/-- Witness for `status_classification_table_total` at a concrete triple. -/
theorem status_classification_table_total_witness :
    classifyStatus (some "skipped") true (some "NH7201234567") = "Skipped" :=
  (status_classification_table_total (some "skipped") true
    (some "NH7201234567")).1 rfl

/-- C4: URL construction is a pure function of its inputs — equal inputs
give an identical URL string — the `rsc` room qualifier is the string
`{rooms}e{adults}e{children}e`, and that string is embedded in the URL. -/
theorem build_hotel_url_pure (a b : UrlInputs) (hab : a = b) :
    build_hotel_url a = build_hotel_url b ∧
    rscQualifier a.rooms a.adults a.children =
      toString a.rooms ++ "e" ++ toString a.adults ++ "e" ++
      toString a.children ++ "e" ∧
    ∃ p, build_hotel_url a =
      p ++ (toString a.rooms ++ "e" ++ toString a.adults ++ "e" ++
        toString a.children ++ "e") := by
  subst hab
  refine ⟨rfl, rfl,
    ⟨"https://www.makemytrip.com/hotels/hotel-details/" ++
      "?hotelId=" ++ a.hotelId ++
      "&_uCurrency=INR" ++
      "&checkin=" ++ a.checkinDate ++
      "&checkout=" ++ a.checkoutDate ++
      "&city=" ++ a.cityCode ++
      "&country=IN" ++
      "&locusId=" ++ a.cityCode ++
      "&locusType=city" ++
      "&roomStayQualifier=" ++ roomStayQualifier a.adults a.children ++
      "&rsc=", rfl⟩⟩

/-- Witness for `build_hotel_url_pure` at a concrete input. -/
theorem build_hotel_url_pure_witness :
    build_hotel_url ⟨"118513", "10192026", "10212026", "DEL", 2, 0, 1⟩ =
    build_hotel_url ⟨"118513", "10192026", "10212026", "DEL", 2, 0, 1⟩ :=
  (build_hotel_url_pure ⟨"118513", "10192026", "10212026", "DEL", 2, 0, 1⟩
    ⟨"118513", "10192026", "10212026", "DEL", 2, 0, 1⟩ rfl).1

/-- C5: checkin is the run date plus `checkin_days` days, checkout is
checkin plus `nights` days, and for `nights ≥ 1` checkout is strictly
later than checkin. -/
theorem booking_dates_derivation (today checkinDays nights : Int) :
    (load_booking_from_dict today checkinDays nights).1 =
      today + checkinDays ∧
    (load_booking_from_dict today checkinDays nights).2 =
      (load_booking_from_dict today checkinDays nights).1 + nights ∧
    (1 ≤ nights →
      (load_booking_from_dict today checkinDays nights).1 <
        (load_booking_from_dict today checkinDays nights).2) := by
  refine ⟨rfl, rfl, fun h => ?_⟩
  simp only [load_booking_from_dict]
  omega

/-- Witness for `booking_dates_derivation` at a concrete input. -/
theorem booking_dates_derivation_witness :
    (1 : Int) ≤ 2 ∧
    (load_booking_from_dict 20370 7 2).1 < (load_booking_from_dict 20370 7 2).2 :=
  ⟨by decide, (booking_dates_derivation 20370 7 2).2.2 (by decide)⟩

/-- If no indicator is seen at any check boundary inside the wait window,
the loop runs its sleeps to the budget and exits at exactly
`PAYMENT_WAIT_TIMEOUT` unconfirmed. -/
lemma payWaitAux_no_fire (t : Option Nat)
    (h : ∀ e, e % PAYMENT_CHECK_INTERVAL = 0 → e < PAYMENT_WAIT_TIMEOUT →
      indicatorPresent t e = false) :
    ∀ fuel e, PAYMENT_WAIT_TIMEOUT ≤ e + fuel * PAYMENT_CHECK_INTERVAL →
      e % PAYMENT_CHECK_INTERVAL = 0 → e ≤ PAYMENT_WAIT_TIMEOUT →
      payWaitAux t fuel e = (PAYMENT_WAIT_TIMEOUT, false) := by
  intro fuel
  induction fuel with
  | zero =>
    intro e h1 h2 h3
    have he : e = PAYMENT_WAIT_TIMEOUT := by
      simp only [PAYMENT_WAIT_TIMEOUT, PAYMENT_CHECK_INTERVAL] at *
      omega
    simp [payWaitAux, he]
  | succ f ih =>
    intro e h1 h2 h3
    by_cases hlt : e < PAYMENT_WAIT_TIMEOUT
    · rw [payWaitAux, if_pos hlt, h e h2 hlt]
      simp only [Bool.false_eq_true, if_false]
      exact ih (e + PAYMENT_CHECK_INTERVAL)
        (by simp only [PAYMENT_WAIT_TIMEOUT, PAYMENT_CHECK_INTERVAL] at *; omega)
        (by simp only [PAYMENT_CHECK_INTERVAL] at *; omega)
        (by simp only [PAYMENT_WAIT_TIMEOUT, PAYMENT_CHECK_INTERVAL] at *; omega)
    · have he : e = PAYMENT_WAIT_TIMEOUT := by
        simp only [PAYMENT_WAIT_TIMEOUT, PAYMENT_CHECK_INTERVAL] at *
        omega
      rw [payWaitAux, if_neg hlt, he]

/-- C2 counterexample: an indicator that becomes present at elapsed time
12s, strictly inside the 15s budget, is never seen — the last check is at
10s and the loop then sleeps past the budget — so the loop exits at 15s
with state `timeout`, where the claim requires state `success`. -/
theorem payment_wait_claim_counterexample :
    12 < PAYMENT_WAIT_TIMEOUT ∧
    wait_for_payment_loop (some 12) = (PAYMENT_WAIT_TIMEOUT, false) ∧
    (wait_for_payment_status none (some 12)).1 = "timeout" := by
  decide

/-- C2 (amended): with budget `T = 15` and interval `I = 5`, an indicator
becoming present at `t ≤ T - I` makes the loop exit at the next check
boundary `≥ t` (a multiple of `I`, never later than `t + I`) with state
`success`; an indicator appearing later than `T - I` (in particular one
that never appears) leaves the loop to exit at exactly `T` with state
`timeout`. -/
theorem payment_wait_amended (t0 : Nat) :
    (t0 + PAYMENT_CHECK_INTERVAL ≤ PAYMENT_WAIT_TIMEOUT →
      wait_for_payment_loop (some t0) = (nextCheckBoundary t0, true) ∧
      t0 ≤ nextCheckBoundary t0 ∧
      nextCheckBoundary t0 ≤ t0 + PAYMENT_CHECK_INTERVAL ∧
      (wait_for_payment_status none (some t0)).1 = "success") ∧
    (PAYMENT_WAIT_TIMEOUT < t0 + PAYMENT_CHECK_INTERVAL →
      wait_for_payment_loop (some t0) = (PAYMENT_WAIT_TIMEOUT, false) ∧
      (wait_for_payment_status none (some t0)).1 = "timeout") ∧
    (wait_for_payment_loop none = (PAYMENT_WAIT_TIMEOUT, false) ∧
      (wait_for_payment_status none none).1 = "timeout") := by
  refine ⟨?_, ?_, by decide⟩
  · intro h
    have h10 : t0 ≤ 10 := by
      simp only [PAYMENT_WAIT_TIMEOUT, PAYMENT_CHECK_INTERVAL] at h
      omega
    interval_cases t0 <;> decide
  · intro h
    have ht : 10 < t0 := by
      simp only [PAYMENT_WAIT_TIMEOUT, PAYMENT_CHECK_INTERVAL] at h
      omega
    have hr : wait_for_payment_loop (some t0) =
        (PAYMENT_WAIT_TIMEOUT, false) := by
      unfold wait_for_payment_loop
      refine payWaitAux_no_fire (some t0) ?_ _ 0 (by decide) (by decide)
        (by decide)
      intro e he1 he2
      have hne : ¬ t0 ≤ e := by
        simp only [PAYMENT_WAIT_TIMEOUT, PAYMENT_CHECK_INTERVAL] at *
        omega
      simp [indicatorPresent, hne]
    exact ⟨hr, by simp [wait_for_payment_status, hr]⟩

/-- Witness for `payment_wait_amended`: an indicator present from 6s is
picked up by the check at the 10s boundary, within `6 + I`. -/
theorem payment_wait_amended_witness :
    wait_for_payment_loop (some 6) = (nextCheckBoundary 6, true) ∧
    6 ≤ nextCheckBoundary 6 ∧
    nextCheckBoundary 6 ≤ 6 + PAYMENT_CHECK_INTERVAL ∧
    (wait_for_payment_status none (some 6)).1 = "success" :=
  (payment_wait_amended 6).1 (by decide)

/-- A pending row survives parse and validation exactly when its
stringified hotel id and city code are non-empty after stripping and its
present numeric cells all parse as integers. -/
lemma includeRow_isSome (idx : Nat) (r : SheetRow) :
    (includeRow idx r).isSome = true ↔
      (strField r.hotelId ≠ "" ∧ pyUpper (strField r.cityCode) ≠ "" ∧
       (numField r.nights 1).isSome = true ∧
       (numField r.adults 2).isSome = true ∧
       (numField r.children 0).isSome = true ∧
       (numField r.rooms 1).isSome = true) := by
  unfold includeRow parseBookingRow
  rcases hn : numField r.nights 1 with _ | n <;>
    rcases ha : numField r.adults 2 with _ | a <;>
      rcases hc : numField r.children 0 with _ | c <;>
        rcases hm : numField r.rooms 1 with _ | m <;>
          simp [hn, ha, hc, hm]

/-- C3 counterexample: `badNightsRow` has empty status, non-empty hotel id
and city code, so the claim requires it in the worklist — but the code
excludes it because `int` of its `Nights` cell raises. -/
theorem pending_worklist_claim_counterexample :
    pyStr badNightsRow.status = "nan" ∧
    strField badNightsRow.hotelId = "98765" ∧
    pyUpper (strField badNightsRow.cityCode) = "GOI" ∧
    get_pending_bookings [badNightsRow] = [] := by
  decide

/-- C3 (amended): a row enters the pending worklist iff its status cell is
blank (stringified `"nan"`) or reads `pending` case-insensitively after
trimming, its stringified-and-stripped hotel id and city code are
non-empty (a blank cell stringifies to `"nan"` and therefore counts as
non-empty), and each present Nights / Adults / Children / Rooms cell
parses as an integer. The scenario row (empty status, hotel id `12345`,
city code `del`) is included with city code normalized to `DEL`. -/
theorem pending_worklist_amended :
    (∀ r : SheetRow,
      get_pending_bookings [r] ≠ [] ↔
        ((pyStr r.status = "nan" ∨
            pyStrip (pyLower (pyStr r.status)) = "pending") ∧
         strField r.hotelId ≠ "" ∧ pyUpper (strField r.cityCode) ≠ "" ∧
         (numField r.nights 1).isSome = true ∧
         (numField r.adults 2).isSome = true ∧
         (numField r.children 0).isSome = true ∧
         (numField r.rooms 1).isSome = true)) ∧
    get_pending_bookings [scenPendingRow] =
      [{ rowNumber := 2, hotelId := "12345", cityCode := "DEL",
         checkinDays := 7, nights := 1, adults := 2, children := 0,
         rooms := 1, firstName := "", lastName := "", email := "",
         mobile := "", upiId := "" }] := by
  refine ⟨?_, by decide⟩
  intro r
  have hbr : get_pending_bookings [r] ≠ [] ↔
      (rowPending r = true ∧ (includeRow 0 r).isSome = true) := by
    by_cases hp : rowPending r
    · rcases hi : includeRow 0 r with _ | b <;>
        simp [get_pending_bookings, get_pending_bookings_aux, hp, hi]
    · simp [get_pending_bookings, get_pending_bookings_aux, hp]
  rw [hbr, includeRow_isSome]
  simp only [rowPending, Bool.or_eq_true, beq_iff_eq]

/-- Witness for `pending_worklist_amended`: the scenario row is in the
worklist. -/
theorem pending_worklist_amended_witness :
    get_pending_bookings [scenPendingRow] ≠ [] :=
  (pending_worklist_amended.1 scenPendingRow).mpr (by decide)

/-- C10 counterexample: `blankNightsRow` has a missing (empty) `Nights`
value, empty status, and non-empty hotel id and city code — the claim
requires the field to default to 1 and a complete booking request to be
produced, but the row is dropped from the worklist. -/
theorem numeric_field_defaults_counterexample :
    blankNightsRow.nights = some Cell.blank ∧
    rowPending blankNightsRow = true ∧
    strField blankNightsRow.hotelId = "777001" ∧
    pyUpper (strField blankNightsRow.cityCode) = "BOM" ∧
    get_pending_bookings [blankNightsRow] = [] := by
  decide

/-- C10 (amended): the check-in offset defaults to 7 both when its column
is absent and when its cell value cannot be converted to an integer;
Nights, Adults, Children and Rooms default to 1, 2, 0 and 1 only when
their columns are absent — a present cell that `int()` cannot convert
drops the row — so a complete booking request is produced exactly for
rows whose present numeric cells parse and whose stringified hotel id and
city code are non-empty. -/
theorem numeric_field_defaults_amended (idx : Nat) (r : SheetRow) :
    (r.checkin = none → rowCheckinDays r = 7) ∧
    (∀ c, r.checkin = some c → pyInt? c = none → rowCheckinDays r = 7) ∧
    (r.nights = none → numField r.nights 1 = some 1) ∧
    (r.adults = none → numField r.adults 2 = some 2) ∧
    (r.children = none → numField r.children 0 = some 0) ∧
    (r.rooms = none → numField r.rooms 1 = some 1) ∧
    (strField r.hotelId ≠ "" → pyUpper (strField r.cityCode) ≠ "" →
      (numField r.nights 1).isSome = true →
      (numField r.adults 2).isSome = true →
      (numField r.children 0).isSome = true →
      (numField r.rooms 1).isSome = true →
      ∃ b, includeRow idx r = some b ∧ b.checkinDays = rowCheckinDays r ∧
        b.hotelId = strField r.hotelId ∧
        b.cityCode = pyUpper (strField r.cityCode)) := by
  refine ⟨fun h => by simp [rowCheckinDays, h],
    fun c h1 h2 => by simp [rowCheckinDays, h1, h2],
    fun h => by simp [numField, h],
    fun h => by simp [numField, h],
    fun h => by simp [numField, h],
    fun h => by simp [numField, h], ?_⟩
  intro hh hc h1 h2 h3 h4
  rcases hn : numField r.nights 1 with _ | n
  · rw [hn] at h1; simp at h1
  rcases ha : numField r.adults 2 with _ | a
  · rw [ha] at h2; simp at h2
  rcases hch : numField r.children 0 with _ | c
  · rw [hch] at h3; simp at h3
  rcases hrm : numField r.rooms 1 with _ | m
  · rw [hrm] at h4; simp at h4
  have hinc : includeRow idx r = some
      { rowNumber := idx + 2, hotelId := strField r.hotelId,
        cityCode := pyUpper (strField r.cityCode),
        checkinDays := rowCheckinDays r, nights := n, adults := a,
        children := c, rooms := m,
        firstName := strField r.firstName,
        lastName := strField r.lastName, email := strField r.email,
        mobile := strField r.mobile, upiId := strField r.upiId } := by
    unfold includeRow parseBookingRow
    rw [hn, ha, hch, hrm]
    simp [hh, hc]
  exact ⟨_, hinc, rfl, rfl, rfl⟩

/-- Witness for `numeric_field_defaults_amended` at the all-columns-absent
row with hotel id `445566` and city code `PNQ`. -/
theorem numeric_field_defaults_amended_witness :
    ∃ b, includeRow 0
        { status := Cell.blank, hotelId := some (Cell.str "445566"),
          cityCode := some (Cell.str "pnq"), checkin := none,
          nights := none, adults := none, children := none, rooms := none,
          firstName := none, lastName := none, email := none,
          mobile := none, upiId := none } = some b ∧
      b.checkinDays = rowCheckinDays
        { status := Cell.blank, hotelId := some (Cell.str "445566"),
          cityCode := some (Cell.str "pnq"), checkin := none,
          nights := none, adults := none, children := none, rooms := none,
          firstName := none, lastName := none, email := none,
          mobile := none, upiId := none } ∧
      b.hotelId = strField (some (Cell.str "445566")) ∧
      b.cityCode = pyUpper (strField (some (Cell.str "pnq"))) :=
  (numeric_field_defaults_amended 0
    { status := Cell.blank, hotelId := some (Cell.str "445566"),
      cityCode := some (Cell.str "pnq"), checkin := none, nights := none,
      adults := none, children := none, rooms := none, firstName := none,
      lastName := none, email := none, mobile := none,
      upiId := none }).2.2.2.2.2.2 (by decide) (by decide) (by decide)
    (by decide) (by decide) (by decide)

/-- C6: when the Book Now click fails under both locator strategies, the
booking terminates immediately with `success = false`, payment-state
`skipped` and the fixed skip message, it is classified `Skipped`, and no
step beyond BookNow is attempted. -/
theorem book_now_failure_skips (env : FlowEnv)
    (hn : env.navigate = Except.ok ())
    (h1 : env.bookNowClick = false) (h2 : env.bookNowAltClick = false) :
    process_single_booking env =
      ⟨false, "Skipped - Book Now button not found", some "skipped",
        none, none⟩ ∧
    classifyStatus (process_single_booking env).paymentStatus
      (process_single_booking env).success
      (process_single_booking env).bookingId = "Skipped" ∧
    (processT env).2 = [Step.openHotelPage, Step.bookNow] := by
  have hp : processT env =
      (⟨false, "Skipped - Book Now button not found", some "skipped",
        none, none⟩, [Step.openHotelPage, Step.bookNow]) := by
    simp [processT, hn, click_book_now, h1, h2]
  refine ⟨?_, ?_, ?_⟩
  · rw [process_single_booking, hp]
  · rw [process_single_booking, hp]; decide
  · rw [hp]

/-- Witness for `book_now_failure_skips` at `envBookNowGone`. -/
theorem book_now_failure_skips_witness :
    process_single_booking envBookNowGone =
      ⟨false, "Skipped - Book Now button not found", some "skipped",
        none, none⟩ ∧
    classifyStatus (process_single_booking envBookNowGone).paymentStatus
      (process_single_booking envBookNowGone).success
      (process_single_booking envBookNowGone).bookingId = "Skipped" ∧
    (processT envBookNowGone).2 = [Step.openHotelPage, Step.bookNow] :=
  book_now_failure_skips envBookNowGone rfl rfl rfl

/-- C8: when the element tier finds nothing, `extract_booking_id` returns
whatever identifier the regex tier captures from the page source. -/
theorem booking_id_regex_fallback (elems : List String) (page : String)
    (sweep : List String) (r : String)
    (h1 : elemTier elems = none) (h2 : regexTier page = some r) :
    extract_booking_id elems page sweep = some r := by
  simp [extract_booking_id, h1, h2]

/-- Witness for `booking_id_regex_fallback`: no element text matches, the
page markup contains `Booking ID: ABC123XYZ`, and the extractor returns
`ABC123XYZ` via the regex tier. -/
theorem booking_id_regex_fallback_witness :
    elemTier [] = none ∧
    regexTier "<html><body>Your Booking ID: ABC123XYZ</body></html>" =
      some "ABC123XYZ" ∧
    extract_booking_id []
      "<html><body>Your Booking ID: ABC123XYZ</body></html>" [] =
      some "ABC123XYZ" :=
  ⟨rfl, by decide,
    booking_id_regex_fallback []
      "<html><body>Your Booking ID: ABC123XYZ</body></html>" []
      "ABC123XYZ" rfl (by decide)⟩

/-- C9: an exception raised inside a booking's flow is caught at the
orchestrator boundary — `process_single_booking` returns instead of
propagating, with `success = false` and the exception's message — the
booking is classified `Failed`, and the per-row loop still processes every
row of the worklist. -/
theorem booking_exception_isolated (env : FlowEnv) (msg : String)
    (h : env.navigate = Except.error msg) :
    process_single_booking env = ⟨false, msg, some "error", none, none⟩ ∧
    classifyStatus (process_single_booking env).paymentStatus
      (process_single_booking env).success
      (process_single_booking env).bookingId = "Failed" ∧
    ∀ items : List (Nat × FlowEnv),
      (processBookings items).length = items.length := by
  have hp : process_single_booking env =
      ⟨false, msg, some "error", none, none⟩ := by
    simp [process_single_booking, processT, h]
  refine ⟨hp, ?_, ?_⟩
  · rw [hp]; simp [classifyStatus]
  · intro items; simp [processBookings]

/-- Witness for `booking_exception_isolated` at `envNavRaises`. -/
theorem booking_exception_isolated_witness :
    process_single_booking envNavRaises =
      ⟨false, "Message: timeout from renderer", some "error", none,
        none⟩ ∧
    classifyStatus (process_single_booking envNavRaises).paymentStatus
      (process_single_booking envNavRaises).success
      (process_single_booking envNavRaises).bookingId = "Failed" ∧
    ∀ items : List (Nat × FlowEnv),
      (processBookings items).length = items.length :=
  booking_exception_isolated envNavRaises "Message: timeout from renderer"
    rfl

/-- C7 counterexample: in `envPayWaitError` the flow reaches step 8
(payment wait), yet the booking aborts there — the outcome is
`success = false` and steps 9-11 (popup dismissal, id extraction, price
extraction) are never attempted — contradicting the claim that steps 8-11,
once reached, always run to completion and never abort the booking. -/
theorem payment_wait_error_aborts_counterexample :
    Step.paymentWait ∈ (processT envPayWaitError).2 ∧
    (process_single_booking envPayWaitError).success = false ∧
    (process_single_booking envPayWaitError).message =
      "Error - Error while waiting: connection lost" ∧
    Step.closePopup ∉ (processT envPayWaitError).2 ∧
    Step.extractBookingId ∉ (processT envPayWaitError).2 ∧
    Step.extractPrice ∉ (processT envPayWaitError).2 := by
  decide

/-- C7 (amended): any of steps 2-7 returning failure aborts the remaining
steps with `success = false` and that step's message; once step 8 (payment
wait) is reached it always runs: if it does not itself error (it reports
`success` or `timeout`), steps 9-11 run to completion and the booking
never aborts (`success = true`); but if the payment wait errors, the
booking yields `success = false` with the `Error - ...` message and steps
9-11 are skipped. -/
theorem step_failure_abort_amended (env : FlowEnv)
    (hn : env.navigate = Except.ok ()) :
    (click_book_now env = false →
      process_single_booking env =
        ⟨false, "Skipped - Book Now button not found", some "skipped",
          none, none⟩ ∧
      (processT env).2 = [Step.openHotelPage, Step.bookNow]) ∧
    (click_book_now env = true → env.guestDetailsOk = false →
      process_single_booking env =
        ⟨false, "Failed to enter guest details", none, none, none⟩ ∧
      (processT env).2 =
        [Step.openHotelPage, Step.bookNow, Step.guestDetails]) ∧
    (click_book_now env = true → env.guestDetailsOk = true →
      env.payNowOk = false →
      process_single_booking env =
        ⟨false, "Pay Now button not found", none, none, none⟩ ∧
      (processT env).2 =
        [Step.openHotelPage, Step.bookNow, Step.guestDetails,
         Step.payNow]) ∧
    (click_book_now env = true → env.guestDetailsOk = true →
      env.payNowOk = true → env.selectUpiOk = false →
      process_single_booking env =
        ⟨false, "UPI option not found", none, none, none⟩ ∧
      (processT env).2 =
        [Step.openHotelPage, Step.bookNow, Step.guestDetails,
         Step.payNow, Step.selectUpi]) ∧
    (click_book_now env = true → env.guestDetailsOk = true →
      env.payNowOk = true → env.selectUpiOk = true →
      env.enterUpiOk = false →
      process_single_booking env =
        ⟨false, "Failed to enter UPI ID", none, none, none⟩ ∧
      (processT env).2 =
        [Step.openHotelPage, Step.bookNow, Step.guestDetails,
         Step.payNow, Step.selectUpi, Step.enterUpiId]) ∧
    (click_book_now env = true → env.guestDetailsOk = true →
      env.payNowOk = true → env.selectUpiOk = true →
      env.enterUpiOk = true → env.sendPaymentOk = false →
      process_single_booking env =
        ⟨false, "Failed to send payment request", none, none, none⟩ ∧
      (processT env).2 =
        [Step.openHotelPage, Step.bookNow, Step.guestDetails,
         Step.payNow, Step.selectUpi, Step.enterUpiId,
         Step.sendPaymentRequest]) ∧
    (stepsOk env → env.payWaitExc = none →
      (process_single_booking env).success = true ∧
      (processT env).2 = allSteps) ∧
    (stepsOk env → ∀ e, env.payWaitExc = some e →
      process_single_booking env =
        ⟨false, "Error - Error while waiting: " ++ e, some "error",
          none, none⟩ ∧
      (processT env).2 = stepsThroughWait) := by
  refine ⟨?_, ?_, ?_, ?_, ?_, ?_, ?_, ?_⟩
  · intro h0
    constructor <;> simp [process_single_booking, processT, hn, h0]
  · intro h0 h1
    constructor <;> simp [process_single_booking, processT, hn, h0, h1]
  · intro h0 h1 h2
    constructor <;>
      simp [process_single_booking, processT, hn, h0, h1, h2]
  · intro h0 h1 h2 h3
    constructor <;>
      simp [process_single_booking, processT, hn, h0, h1, h2, h3]
  · intro h0 h1 h2 h3 h4
    constructor <;>
      simp [process_single_booking, processT, hn, h0, h1, h2, h3, h4]
  · intro h0 h1 h2 h3 h4 h5
    constructor <;>
      simp [process_single_booking, processT, hn, h0, h1, h2, h3, h4, h5]
  · intro hok hexc
    obtain ⟨h0, h1, h2, h3, h4, h5⟩ := hok
    cases hb : (wait_for_payment_loop env.indicatorTime).2 <;>
      constructor <;>
        simp [process_single_booking, processT, hn, h0, h1, h2, h3, h4,
          h5, wait_for_payment_status, hexc, hb]
  · intro hok e hexc
    obtain ⟨h0, h1, h2, h3, h4, h5⟩ := hok
    refine ⟨?_, ?_⟩ <;>
      simp [process_single_booking, processT, hn, h0, h1, h2, h3, h4, h5,
        wait_for_payment_status, hexc]
    rw [← String.append_assoc]
    rfl

/-- Witness for `step_failure_abort_amended`: in `envAllOk` the booking
succeeds and steps 9-11 are attempted. -/
theorem step_failure_abort_amended_witness :
    (process_single_booking envAllOk).success = true ∧
    (processT envAllOk).2 = allSteps :=
  (step_failure_abort_amended envAllOk rfl).2.2.2.2.2.2.1
    (by exact ⟨rfl, rfl, rfl, rfl, rfl, rfl⟩) rfl
